import Mathlib

/-!
Shallow embedding of the npc-lp-strategy repository's core logic.

The embedding follows the TypeScript sources:
  * `src/services/CustomPoolStrategy.ts` — the rebalancing orchestrator
    (`ensureBalanced5050`, `rebalanceAndOpenPositions`, `strategy`,
    `separatePrincipalAndFees`, `isPriceBeyondTickThreshold`, `priceToTick`),
  * `src/services/LiquidityManager.ts` — `tickToPrice` (chunked exponentiation),
  * `src/services/OracleService.ts` — `getTickSpacing` and `initialize`.

Modelling conventions:
  * `BigNumber` token amounts are modelled as `ℤ` (ethers BigNumber is an
    arbitrary-precision signed integer).
  * JavaScript float arithmetic on prices is modelled as exact arithmetic:
    `ℚ` where the computation is algebraic (so every definition stays
    executable), `ℝ` where the source calls `Math.log` / `Math.sqrt`.
  * TypeScript fields of type `T | null` / optional fields are `Option`.
    The JS expression `x?.f` is `Option.map`; arithmetic on `undefined`
    produces `NaN`, and every `<`/`>` comparison against `NaN` is false —
    this is modelled by carrying `Option ℤ` thresholds and returning
    `false` when the threshold is `none`.
  * External collaborators (LiquidityManager mint/close transactions, the
    swap service, on-chain balance reads, the oracle price fetch) are
    modelled as environment records supplying each call's outcome:
    `none` models the call throwing, `some r` models success with result `r`.
    Fire-and-forget data-tracking calls are omitted (observability only).
-/

namespace NpcLp

/-- A pair of token amounts (token0, token1), as raw on-chain integer units. -/
structure TokenAmounts where
  amount0 : ℤ
  amount1 : ℤ
deriving DecidableEq, Repr

/-- The fields of `PositionInfo` (src/utils/types.ts) that the strategy logic
reads or writes.  `tokenId`, `token0Amount`, `token1Amount` are optional in
the TypeScript interface, hence `Option`.  Display-only fields
(`priceLower`, `priceUpper`, `inRange`, fee-growth snapshots) are omitted. -/
structure PositionInfo where
  tickLower : ℤ
  tickUpper : ℤ
  liquidity : ℤ
  tokenId : Option ℤ
  token0Amount : Option ℤ
  token1Amount : Option ℤ
deriving DecidableEq, Repr

/-- The mutable fields of `CustomPoolStrategy` that the claims are about:
the two position slots (`inRangePositions`), the tracked wallet balances
(`closeBalances`), the cumulative fee counters and rebalance counter from
`stats`, and `lastRebalancePrice`. -/
structure StrategyState where
  upper : Option PositionInfo
  lower : Option PositionInfo
  closeToken0 : ℤ
  closeToken1 : ℤ
  totalFeesCollectedToken0 : ℤ
  totalFeesCollectedToken1 : ℤ
  totalRebalanceCount : ℤ
  lastRebalancePrice : ℚ
deriving DecidableEq, Repr

/-- Errors thrown by the orchestrator's methods (modelled propagation of the
TypeScript `throw`s). -/
inductive StrategyError where
  | upperMintFailed
  | lowerMintFailed
  | swapFailed
  | closeFailed
deriving DecidableEq, Repr

/-- The result of running one orchestrator method: the instance state after
the method returns or throws, plus the error that propagated (if any).  A
thrown JS error leaves all mutations made before the `throw` in place, so the
state must be reported alongside the error. -/
structure StepResult where
  state : StrategyState
  error : Option StrategyError
deriving DecidableEq, Repr

/-- Result of `LiquidityManager.mintPosition` as consumed by the strategy:
the minted NFT id and the amounts actually pulled from the wallet. -/
structure MintResult where
  tokenId : ℤ
  amount0Used : ℤ
  amount1Used : ℤ
deriving DecidableEq, Repr

/-- Result of `LiquidityManager.closePosition`: total amounts returned to the
wallet (withdrawn principal plus collected fees). -/
structure CloseResult where
  amount0 : ℤ
  amount1 : ℤ
deriving DecidableEq, Repr

/-- Principal/fee split returned by `separatePrincipalAndFees`. -/
structure PrincipalAndFees where
  principal : TokenAmounts
  fees : TokenAmounts
deriving DecidableEq, Repr

/-- `CustomPoolStrategy.separatePrincipalAndFees` (CustomPoolStrategy.ts,
lines 964–1026).  `position.token0Amount || BigNumber.from(0)` defaults a
missing recorded principal to zero (`Option.getD 0`); fees are
`received − principal` when positive and zero otherwise (`received.gt(principal)
? received.sub(principal) : 0`). -/
def separatePrincipalAndFees (position : PositionInfo)
    (amount0Received amount1Received : ℤ) : PrincipalAndFees :=
  let principal0 := position.token0Amount.getD 0
  let principal1 := position.token1Amount.getD 0
  let fees0 := if principal0 < amount0Received then amount0Received - principal0 else 0
  let fees1 := if principal1 < amount1Received then amount1Received - principal1 else 0
  { principal := { amount0 := principal0, amount1 := principal1 },
    fees := { amount0 := fees0, amount1 := fees1 } }

/-- `CustomPoolStrategy.isPriceBeyondTickThreshold` (CustomPoolStrategy.ts,
lines 1088–1127).  `this.inRangePositions.upper?.tickUpper as number` is
`undefined` when the slot is `null`; `undefined + 2*spacing` is `NaN`, and
both strict comparisons against `NaN` yield `false`.  The `Option ℤ`
thresholds model this: a `none` threshold makes its comparison `false`. -/
def isPriceBeyondTickThreshold (upper lower : Option PositionInfo)
    (tickSpacing currentTick : ℤ) : Bool :=
  let upperTickThreshold : Option ℤ :=
    upper.map (fun p => p.tickUpper + 2 * tickSpacing)
  let lowerTickThreshold : Option ℤ :=
    lower.map (fun p => p.tickLower - 2 * tickSpacing)
  let isAboveUpperThreshold : Bool :=
    match lowerTickThreshold with
    | none => false
    | some th => decide (currentTick < th)
  let isBelowLowerThreshold : Bool :=
    match upperTickThreshold with
    | none => false
    | some th => decide (th < currentTick)
  isAboveUpperThreshold || isBelowLowerThreshold

/-- Environment for one run of `rebalanceAndOpenPositions`: the oracle price
fetched at the start, the outcomes of the two mint transactions and of the
unwind close, and the `getPositionInfo` responses.  `none` models the
external call throwing.  The tick ranges passed to `mintPosition` are
computed by the range-planning step (modelled separately as `planRanges`);
since the mint outcomes are supplied by the environment, the tick arguments
do not influence this state transition. -/
structure OpenEnv where
  currentPrice : ℚ
  upperMint : Option MintResult
  lowerMint : Option MintResult
  closeUpper : Option CloseResult
  positionInfo : ℤ → PositionInfo

/-- `LiquidityManager.getPositionInfo(tokenId)` always returns an object
whose `tokenId` field is the requested id (LiquidityManager.ts, line 438). -/
def getPositionInfoAt (env : OpenEnv) (id : ℤ) : PositionInfo :=
  { env.positionInfo id with tokenId := some id }

/-- `CustomPoolStrategy.rebalanceAndOpenPositions` (CustomPoolStrategy.ts,
lines 399–749), state-transition part.  Mint the upper position with the
whole balances; on failure rethrow with nothing mutated.  On success record
the position (principal := amounts actually used) and subtract the used
amounts from `closeBalances`.  Then mint the lower position with the
remaining token1; on success record it, subtract its used amounts and set
`lastRebalancePrice`.  If the lower mint fails and the upper slot holds a
position with a numeric `tokenId`, close that upper position, add the
returned amounts to `closeBalances` and clear the slot (a failure of this
close is caught and logged, leaving the slot populated); in every
lower-mint-failure case the error is rethrown. -/
def rebalanceAndOpenPositions (env : OpenEnv) (st : StrategyState) : StepResult :=
  match env.upperMint with
  | none => { state := st, error := some StrategyError.upperMintFailed }
  | some upperResult =>
    let upperPositionInfo :=
      { getPositionInfoAt env upperResult.tokenId with
          token0Amount := some upperResult.amount0Used,
          token1Amount := some upperResult.amount1Used }
    let st1 : StrategyState :=
      { st with
          upper := some upperPositionInfo,
          closeToken0 := st.closeToken0 - upperResult.amount0Used,
          closeToken1 := st.closeToken1 - upperResult.amount1Used }
    match env.lowerMint with
    | some lowerResult =>
      let lowerPositionInfo :=
        { getPositionInfoAt env lowerResult.tokenId with
            token0Amount := some lowerResult.amount0Used,
            token1Amount := some lowerResult.amount1Used }
      { state :=
          { st1 with
              lower := some lowerPositionInfo,
              closeToken0 := st1.closeToken0 - lowerResult.amount0Used,
              closeToken1 := st1.closeToken1 - lowerResult.amount1Used,
              lastRebalancePrice := env.currentPrice },
        error := none }
    | none =>
      match st1.upper with
      | some u =>
        match u.tokenId with
        | some _ =>
          match env.closeUpper with
          | some closeResult =>
            { state :=
                { st1 with
                    closeToken0 := st1.closeToken0 + closeResult.amount0,
                    closeToken1 := st1.closeToken1 + closeResult.amount1,
                    upper := none },
              error := some StrategyError.lowerMintFailed }
          | none => { state := st1, error := some StrategyError.lowerMintFailed }
        | none => { state := st1, error := some StrategyError.lowerMintFailed }
      | none => { state := st1, error := some StrategyError.lowerMintFailed }

/-- Outcomes of the two `closePosition` calls made by the closing block of
`strategy` (`none` models the transaction throwing). -/
structure CloseEnv where
  closeLower : Option CloseResult
  closeUpper : Option CloseResult

/-- The position-closing block of `CustomPoolStrategy.strategy`
(CustomPoolStrategy.ts, lines 780–908).  If either slot is `null` the whole
block is skipped ("No positions to close").  Otherwise the lower position is
closed first, then the upper: each close adds its full returned amounts to
`closeBalances` and adds the fee component computed by
`separatePrincipalAndFees` to the cumulative fee stats.  Each close is
guarded by `tokenId !== undefined`.  A throwing close aborts the block with
the mutations made so far (the error is caught further up in `strategy`). -/
def closePositionsPhase (env : CloseEnv) (st : StrategyState) : StepResult :=
  match st.lower, st.upper with
  | some l, some u =>
    let afterLower : StepResult :=
      match l.tokenId with
      | none => { state := st, error := none }
      | some _ =>
        match env.closeLower with
        | none => { state := st, error := some StrategyError.closeFailed }
        | some lowerResult =>
          let lowerFees := (separatePrincipalAndFees l
            lowerResult.amount0 lowerResult.amount1).fees
          { state :=
              { st with
                  totalFeesCollectedToken0 :=
                    st.totalFeesCollectedToken0 + lowerFees.amount0,
                  totalFeesCollectedToken1 :=
                    st.totalFeesCollectedToken1 + lowerFees.amount1,
                  closeToken0 := st.closeToken0 + lowerResult.amount0,
                  closeToken1 := st.closeToken1 + lowerResult.amount1 },
            error := none }
    match afterLower.error with
    | some e => { state := afterLower.state, error := some e }
    | none =>
      let st1 := afterLower.state
      match u.tokenId with
      | none => { state := st1, error := none }
      | some _ =>
        match env.closeUpper with
        | none => { state := st1, error := some StrategyError.closeFailed }
        | some upperResult =>
          let upperFees := (separatePrincipalAndFees u
            upperResult.amount0 upperResult.amount1).fees
          { state :=
              { st1 with
                  totalFeesCollectedToken0 :=
                    st1.totalFeesCollectedToken0 + upperFees.amount0,
                  totalFeesCollectedToken1 :=
                    st1.totalFeesCollectedToken1 + upperFees.amount1,
                  closeToken0 := st1.closeToken0 + upperResult.amount0,
                  closeToken1 := st1.closeToken1 + upperResult.amount1 },
            error := none }
  | _, _ => { state := st, error := none }

/-- Which token is sold in a swap request. -/
inductive SwapDir where
  | zeroForOne
  | oneForZero
deriving DecidableEq, Repr

/-- One swap request issued to the SwapService: direction and amount sold,
the amount in human (decimal-adjusted) units as computed by the source
before `parseUnits` rescales it to raw units. -/
structure SwapCall where
  dir : SwapDir
  amount : ℚ
deriving DecidableEq, Repr

/-- Environment for `ensureBalanced5050`: the oracle price fetched at the
start, the swap outcome (`none` = the swap throws), and the wallet balances
read back on-chain after a successful swap. -/
structure BalanceEnv where
  currentPrice : ℚ
  swapSucceeds : Bool
  actualToken0Balance : ℤ
  actualToken1Balance : ℤ

/-- `CustomPoolStrategy.ensureBalanced5050` (CustomPoolStrategy.ts, lines
264–394).  Balances are converted to USD-equivalent values
(`token0Value = formatUnits(bal0, d0) * price`, `token1Value =
formatUnits(bal1, d1)`, modelled exactly over `ℚ`).  If
`|token0Value - token1Value| / totalValue > 0` (any nonzero imbalance; with
`totalValue = 0` the quotient is division by zero, `NaN > 0` is false in JS
and `0 > 0` is false in `ℚ`), one swap of the larger-value token into the
smaller is issued, sized to reach the per-token target `totalValue / 2`; on
success the tracked balances are replaced by fresh on-chain reads, on
failure the error is rethrown.  Returns the issued swap requests alongside
the state and error. -/
def ensureBalanced5050 (env : BalanceEnv) (d0 d1 : ℕ) (st : StrategyState) :
    StepResult × List SwapCall :=
  let token0Value : ℚ := ((st.closeToken0 : ℚ) / 10 ^ d0) * env.currentPrice
  let token1Value : ℚ := (st.closeToken1 : ℚ) / 10 ^ d1
  let totalValue := token0Value + token1Value
  let targetValue := totalValue / 2
  if |token0Value - token1Value| / totalValue > 0 then
    if token1Value < token0Value then
      let swapAmountToken0 := (token0Value - targetValue) / env.currentPrice
      if env.swapSucceeds then
        ({ state :=
             { st with closeToken0 := env.actualToken0Balance,
                       closeToken1 := env.actualToken1Balance },
           error := none },
         [{ dir := SwapDir.zeroForOne, amount := swapAmountToken0 }])
      else
        ({ state := st, error := some StrategyError.swapFailed },
         [{ dir := SwapDir.zeroForOne, amount := swapAmountToken0 }])
    else
      let swapAmountToken1 := token1Value - targetValue
      if env.swapSucceeds then
        ({ state :=
             { st with closeToken0 := env.actualToken0Balance,
                       closeToken1 := env.actualToken1Balance },
           error := none },
         [{ dir := SwapDir.oneForZero, amount := swapAmountToken1 }])
      else
        ({ state := st, error := some StrategyError.swapFailed },
         [{ dir := SwapDir.oneForZero, amount := swapAmountToken1 }])
  else
    ({ state := st, error := none }, [])

/-- `CustomPoolStrategy.strategy` (CustomPoolStrategy.ts, lines 754–958),
one monitoring iteration.  If `isPriceBeyondTickThreshold` is false the
method does nothing.  Otherwise it runs, inside one try/catch whose handler
only logs: the closing block, the rebalance-stats update
(`totalRebalanceCount + 1`) with the reset of both slots, `ensureBalanced5050`,
`rebalanceAndOpenPositions`, and `updateRebalanceBaseline` (which refreshes
`lastRebalancePrice`; its own errors are caught and ignored).  Any error
thrown inside the block stops the remaining steps but is swallowed, so the
method itself always returns normally. -/
def strategyStep (cEnv : CloseEnv) (bEnv : BalanceEnv) (oEnv : OpenEnv)
    (d0 d1 : ℕ) (baselinePrice : ℚ) (tickSpacing currentTick : ℤ)
    (st : StrategyState) : StepResult :=
  if isPriceBeyondTickThreshold st.upper st.lower tickSpacing currentTick then
    let r1 := closePositionsPhase cEnv st
    match r1.error with
    | some _ => { state := r1.state, error := none }
    | none =>
      let st2 : StrategyState :=
        { r1.state with
            totalRebalanceCount := r1.state.totalRebalanceCount + 1,
            upper := none, lower := none }
      let r3 := ensureBalanced5050 bEnv d0 d1 st2
      match r3.1.error with
      | some _ => { state := r3.1.state, error := none }
      | none =>
        let r4 := rebalanceAndOpenPositions oEnv r3.1.state
        match r4.error with
        | some _ => { state := r4.state, error := none }
        | none =>
          { state := { r4.state with lastRebalancePrice := baselinePrice },
            error := none }
  else
    { state := st, error := none }

/-- The pool parameters `OracleService.initialize` fetches from the token and
pool contracts (OracleService.ts, lines 39–61). -/
structure OracleFetched where
  token0Decimals : ℤ
  token1Decimals : ℤ
  poolFee : ℤ
  tickSpacing : ℤ
deriving DecidableEq, Repr

/-- The nullable cached fields of `OracleService` (OracleService.ts, lines
14–19); every field starts as `null`. -/
structure OracleState where
  token0Decimals : Option ℤ
  token1Decimals : Option ℤ
  poolFee : Option ℤ
  tickSpacing : Option ℤ
deriving DecidableEq, Repr

/-- A freshly constructed `OracleService`: all cached fields are `null`. -/
def OracleState.uninitialized : OracleState :=
  { token0Decimals := none, token1Decimals := none,
    poolFee := none, tickSpacing := none }

/-- `OracleService.initialize` (OracleService.ts, lines 39–61): caches the
fetched decimals, fee and tick spacing. -/
def initializeOracle (fetched : OracleFetched) (s : OracleState) : OracleState :=
  { s with
      token0Decimals := some fetched.token0Decimals,
      token1Decimals := some fetched.token1Decimals,
      poolFee := some fetched.poolFee,
      tickSpacing := some fetched.tickSpacing }

/-- `OracleService.getTickSpacing` (OracleService.ts, lines 125–127):
`return this.tickSpacing!`.  The TypeScript non-null assertion `!` is a
compile-time cast erased at runtime: the method performs no check and throws
nothing, so before `initialize` it simply returns the field's `null` value
(`none`). -/
def getTickSpacing (s : OracleState) : Option ℤ :=
  s.tickSpacing

/-- The iterative accumulation loop of `LiquidityManager.tickToPrice`
(LiquidityManager.ts, lines 615–619): `price = 1.0; for (i < iterations)
price *= step`. -/
def powLoop (step : ℚ) : ℕ → ℚ → ℚ
  | 0, price => price
  | n + 1, price => powLoop step n (price * step)

/-- `LiquidityManager.tickToPrice` (LiquidityManager.ts, lines 601–634),
exact-arithmetic model of the float computation.  For `|tick| > 50000` the
exponentiation is split into chunks: `step = 1.0001^(50000*sign)` multiplied
in `Math.floor(|tick|/50000)` iterations, then `1.0001^(remainder*sign)`
with `remainder = |tick| % 50000`; otherwise `1.0001^tick` directly.  The
decimal adjustment `10^(d0-d1)` is applied only when the decimals differ. -/
def LiquidityManager.tickToPrice (tick token0Decimals token1Decimals : ℤ) : ℚ :=
  let price : ℚ :=
    if 50000 < tick.natAbs then
      let sign : ℤ := tick.sign
      let remainder : ℤ := (tick.natAbs : ℤ) % 50000
      let iterations : ℕ := tick.natAbs / 50000
      let step : ℚ := (1.0001 : ℚ) ^ (50000 * sign)
      let chunked : ℚ := powLoop step iterations 1
      chunked * (1.0001 : ℚ) ^ (remainder * sign)
    else
      (1.0001 : ℚ) ^ tick
  if token0Decimals ≠ token1Decimals then
    price * (10 : ℚ) ^ (token0Decimals - token1Decimals)
  else
    price

/-- The direct one-shot formula that the chunked path of `tickToPrice` is
claimed to equal: `1.0001^tick * 10^(token0Decimals - token1Decimals)`. -/
def tickToPriceDirect (tick token0Decimals token1Decimals : ℤ) : ℚ :=
  (1.0001 : ℚ) ^ tick * (10 : ℚ) ^ (token0Decimals - token1Decimals)

/-- `CustomPoolStrategy.priceToTick` (CustomPoolStrategy.ts, lines
1134–1140), real-arithmetic model of
`(Math.log(price) - (d0 - d1) * Math.log(10)) / Math.log(1.0001)`.
The source returns this quotient directly — it applies no `Math.floor` or
`Math.round`. -/
noncomputable def CustomPoolStrategy.priceToTick
    (token0Decimals token1Decimals : ℤ) (price : ℝ) : ℝ :=
  (Real.log price -
      ((token0Decimals : ℝ) - (token1Decimals : ℝ)) * Real.log 10) /
    Real.log 1.0001

/-- The value the spec says `priceToTick` returns: the floor of the
log-ratio, an integer tick. -/
noncomputable def priceToTickFloorSpec
    (token0Decimals token1Decimals : ℤ) (price : ℝ) : ℤ :=
  ⌊(Real.log price -
      ((token0Decimals : ℝ) - (token1Decimals : ℝ)) * Real.log 10) /
    Real.log 1.0001⌋

/-- Modelled from the spec: `alignTick`.  The implementation
(`LiquidityManager.alignTickToSpacing`, delegated to at
CustomPoolStrategy.ts lines 1161–1172) is not among the repository's
available sources — only its call sites are.  Spec §4.1: returns the nearest
multiple of `spacing` at or beyond `tick` in the requested direction; exact
multiples are returned unchanged regardless of direction.  Rounding up is
`spacing * ⌈tick/spacing⌉`, rounding down `spacing * ⌊tick/spacing⌋`; the
raw tick is a real number because `priceToTick` returns an unrounded
quotient. -/
noncomputable def alignTick (tick : ℝ) (tickSpacing : ℤ) (roundUp : Bool) : ℤ :=
  if roundUp then
    tickSpacing * ⌈tick / (tickSpacing : ℝ)⌉
  else
    tickSpacing * ⌊tick / (tickSpacing : ℝ)⌋

/-- The range-planning step of `rebalanceAndOpenPositions`
(CustomPoolStrategy.ts, lines 410–489): width percent and 5% overlap give
three price points (`upper = p + range/2`, `transition = p - 0.05*range`,
`lower = p - range/2`); each is converted by `priceToTick`; the upper bound
is aligned rounding up, the transition and lower bound rounding down.
Returns (alignedLowerPositionLowerTick, alignedTransitionTick,
alignedUpperPositionUpperTick). -/
noncomputable def planRanges (token0Decimals token1Decimals tickSpacing : ℤ)
    (widthPercent currentPrice : ℝ) : ℤ × ℤ × ℤ :=
  let priceRange := currentPrice * (widthPercent / 100)
  let overlapAmount := priceRange * 0.05
  let upperPositionUpperPrice := currentPrice + priceRange / 2
  let transitionPrice := currentPrice - overlapAmount
  let lowerPositionLowerPrice := currentPrice - priceRange / 2
  let upperPositionUpperTick :=
    CustomPoolStrategy.priceToTick token0Decimals token1Decimals
      upperPositionUpperPrice
  let transitionTick :=
    CustomPoolStrategy.priceToTick token0Decimals token1Decimals
      transitionPrice
  let lowerPositionLowerTick :=
    CustomPoolStrategy.priceToTick token0Decimals token1Decimals
      lowerPositionLowerPrice
  let alignedUpperPositionUpperTick := alignTick upperPositionUpperTick tickSpacing true
  let alignedTransitionTick := alignTick transitionTick tickSpacing false
  let alignedLowerPositionLowerTick := alignTick lowerPositionLowerTick tickSpacing false
  (alignedLowerPositionLowerTick, alignedTransitionTick, alignedUpperPositionUpperTick)

end NpcLp

/-- C2: with both position slots populated, the rebalance trigger fires iff
`currentTick < lowerPosition.tickLower - 2*tickSpacing` or
`currentTick > upperPosition.tickUpper + 2*tickSpacing`; both comparisons are
strict, so at either exact threshold no rebalance triggers. -/
theorem threshold_trigger_iff_strictly_beyond
    (u l : NpcLp.PositionInfo) (s t : ℤ)
    (hs : 0 ≤ s) (hlu : l.tickLower ≤ u.tickUpper) :
    (NpcLp.isPriceBeyondTickThreshold (some u) (some l) s t = true ↔
      (t < l.tickLower - 2 * s ∨ u.tickUpper + 2 * s < t)) ∧
    NpcLp.isPriceBeyondTickThreshold (some u) (some l) s
      (l.tickLower - 2 * s) = false ∧
    NpcLp.isPriceBeyondTickThreshold (some u) (some l) s
      (u.tickUpper + 2 * s) = false := by
  refine ⟨?_, ?_, ?_⟩ <;>
    simp [NpcLp.isPriceBeyondTickThreshold] <;> omega

/-- Witness for C2: a lower position with `tickLower = -100`, an upper
position with `tickUpper = 100`, spacing 10; tick 121 triggers, tick 120
(the exact upper threshold) does not. -/
theorem threshold_trigger_iff_strictly_beyond_witness :
    (0:ℤ) ≤ 10 ∧ (-100:ℤ) ≤ 100 ∧
    (NpcLp.isPriceBeyondTickThreshold
      (some { tickLower := 20, tickUpper := 100, liquidity := 1,
              tokenId := some 2, token0Amount := some 0, token1Amount := some 0 })
      (some { tickLower := -100, tickUpper := 20, liquidity := 1,
              tokenId := some 1, token0Amount := some 0, token1Amount := some 0 })
      10 121 = true ↔
      ((121:ℤ) < -100 - 2 * 10 ∨ (100:ℤ) + 2 * 10 < 121)) ∧
    NpcLp.isPriceBeyondTickThreshold
      (some { tickLower := 20, tickUpper := 100, liquidity := 1,
              tokenId := some 2, token0Amount := some 0, token1Amount := some 0 })
      (some { tickLower := -100, tickUpper := 20, liquidity := 1,
              tokenId := some 1, token0Amount := some 0, token1Amount := some 0 })
      10 ((100:ℤ) + 2 * 10) = false := by
  have h := threshold_trigger_iff_strictly_beyond
    { tickLower := 20, tickUpper := 100, liquidity := 1,
      tokenId := some 2, token0Amount := some 0, token1Amount := some 0 }
    { tickLower := -100, tickUpper := 20, liquidity := 1,
      tokenId := some 1, token0Amount := some 0, token1Amount := some 0 }
    10 121 (by decide) (by decide)
  exact ⟨by decide, by decide, h.1, h.2.2⟩

/-- C5: for a position with recorded principal amounts, the fee component
returned by `separatePrincipalAndFees` is `max 0 (received − principal)` per
token, hence never negative, even when `received < principal`. -/
theorem separatePrincipalAndFees_fee_floor
    (position : NpcLp.PositionInfo) (p0 p1 a0 a1 : ℤ)
    (h0 : position.token0Amount = some p0)
    (h1 : position.token1Amount = some p1) :
    (NpcLp.separatePrincipalAndFees position a0 a1).fees.amount0 =
      max 0 (a0 - p0) ∧
    (NpcLp.separatePrincipalAndFees position a0 a1).fees.amount1 =
      max 0 (a1 - p1) ∧
    0 ≤ (NpcLp.separatePrincipalAndFees position a0 a1).fees.amount0 ∧
    0 ≤ (NpcLp.separatePrincipalAndFees position a0 a1).fees.amount1 := by
  simp only [NpcLp.separatePrincipalAndFees, h0, h1, Option.getD_some]
  refine ⟨?_, ?_, ?_, ?_⟩ <;> split <;> omega

/-- Witness for C5 at a concrete position: principal (5, 7), received (3, 10). -/
theorem separatePrincipalAndFees_fee_floor_witness :
    ({ tickLower := 0, tickUpper := 10, liquidity := 1, tokenId := some 1,
       token0Amount := some 5, token1Amount := some 7 } :
        NpcLp.PositionInfo).token0Amount = some 5 ∧
    (NpcLp.separatePrincipalAndFees
      { tickLower := 0, tickUpper := 10, liquidity := 1, tokenId := some 1,
        token0Amount := some 5, token1Amount := some 7 } 3 10).fees.amount0 =
      max 0 (3 - 5) := by
  exact ⟨rfl, (separatePrincipalAndFees_fee_floor
    { tickLower := 0, tickUpper := 10, liquidity := 1, tokenId := some 1,
      token0Amount := some 5, token1Amount := some 7 } 5 7 3 10 rfl rfl).1⟩

/-- C1: if the upper mint succeeds, the lower mint fails, and the unwind
close succeeds, `rebalanceAndOpenPositions` closes the just-created upper
position, adds the close's returned amounts to the tracked balances (net of
the upper mint's consumed amounts), leaves both slots empty, and propagates
the lower-mint failure. -/
theorem rebalance_unwind_on_lower_mint_failure
    (env : NpcLp.OpenEnv) (st : NpcLp.StrategyState)
    (r : NpcLp.MintResult) (c : NpcLp.CloseResult)
    (hUp : env.upperMint = some r)
    (hLow : env.lowerMint = none)
    (hClose : env.closeUpper = some c)
    (hSlot : st.lower = none) :
    (NpcLp.rebalanceAndOpenPositions env st).state.upper = none ∧
    (NpcLp.rebalanceAndOpenPositions env st).state.lower = none ∧
    (NpcLp.rebalanceAndOpenPositions env st).state.closeToken0 =
      st.closeToken0 - r.amount0Used + c.amount0 ∧
    (NpcLp.rebalanceAndOpenPositions env st).state.closeToken1 =
      st.closeToken1 - r.amount1Used + c.amount1 ∧
    (NpcLp.rebalanceAndOpenPositions env st).error =
      some NpcLp.StrategyError.lowerMintFailed := by
  simp [NpcLp.rebalanceAndOpenPositions, hUp, hLow, hClose, hSlot,
    NpcLp.getPositionInfoAt]

/-- Witness for C1: upper mint consumes (100, 40) out of balances (100, 100),
lower mint fails, closing the upper returns (99, 41); both slots end empty
and the balances end at (0 + 99, 60 + 41). -/
theorem rebalance_unwind_on_lower_mint_failure_witness :
    ({ currentPrice := 2500, upperMint := some ⟨7, 100, 40⟩,
       lowerMint := none, closeUpper := some ⟨99, 41⟩,
       positionInfo := fun _ =>
         { tickLower := 0, tickUpper := 10, liquidity := 1,
           tokenId := none, token0Amount := none, token1Amount := none } } :
       NpcLp.OpenEnv).upperMint = some ⟨7, 100, 40⟩ ∧
    (NpcLp.rebalanceAndOpenPositions
      { currentPrice := 2500, upperMint := some ⟨7, 100, 40⟩,
        lowerMint := none, closeUpper := some ⟨99, 41⟩,
        positionInfo := fun _ =>
          { tickLower := 0, tickUpper := 10, liquidity := 1,
            tokenId := none, token0Amount := none, token1Amount := none } }
      { upper := none, lower := none, closeToken0 := 100, closeToken1 := 100,
        totalFeesCollectedToken0 := 0, totalFeesCollectedToken1 := 0,
        totalRebalanceCount := 0, lastRebalancePrice := 0 }).state.closeToken0 =
      100 - 100 + 99 ∧
    (NpcLp.rebalanceAndOpenPositions
      { currentPrice := 2500, upperMint := some ⟨7, 100, 40⟩,
        lowerMint := none, closeUpper := some ⟨99, 41⟩,
        positionInfo := fun _ =>
          { tickLower := 0, tickUpper := 10, liquidity := 1,
            tokenId := none, token0Amount := none, token1Amount := none } }
      { upper := none, lower := none, closeToken0 := 100, closeToken1 := 100,
        totalFeesCollectedToken0 := 0, totalFeesCollectedToken1 := 0,
        totalRebalanceCount := 0, lastRebalancePrice := 0 }).state.upper = none := by
  have h := rebalance_unwind_on_lower_mint_failure
    { currentPrice := 2500, upperMint := some ⟨7, 100, 40⟩,
      lowerMint := none, closeUpper := some ⟨99, 41⟩,
      positionInfo := fun _ =>
        { tickLower := 0, tickUpper := 10, liquidity := 1,
          tokenId := none, token0Amount := none, token1Amount := none } }
    { upper := none, lower := none, closeToken0 := 100, closeToken1 := 100,
      totalFeesCollectedToken0 := 0, totalFeesCollectedToken1 := 0,
      totalRebalanceCount := 0, lastRebalancePrice := 0 }
    ⟨7, 100, 40⟩ ⟨99, 41⟩ rfl rfl rfl rfl
  exact ⟨rfl, h.2.2.1, h.1⟩

/-- C7: every mint subtracts exactly its consumed amounts from the tracked
balances, and every close adds exactly its returned amounts: after a fully
successful open, `closeBalances` dropped by the two mints' used amounts;
after a fully successful closing block, `closeBalances` rose by the two
closes' returned amounts. -/
theorem balance_conservation_mint_close
    (oEnv : NpcLp.OpenEnv) (st : NpcLp.StrategyState)
    (r r2 : NpcLp.MintResult)
    (cEnv : NpcLp.CloseEnv) (st2 : NpcLp.StrategyState)
    (l u : NpcLp.PositionInfo) (cl cu : NpcLp.CloseResult) (idl idu : ℤ)
    (hUp : oEnv.upperMint = some r) (hLow : oEnv.lowerMint = some r2)
    (hl : st2.lower = some l) (hu : st2.upper = some u)
    (hlid : l.tokenId = some idl) (huid : u.tokenId = some idu)
    (hcl : cEnv.closeLower = some cl) (hcu : cEnv.closeUpper = some cu) :
    ((NpcLp.rebalanceAndOpenPositions oEnv st).state.closeToken0 =
        st.closeToken0 - r.amount0Used - r2.amount0Used ∧
      (NpcLp.rebalanceAndOpenPositions oEnv st).state.closeToken1 =
        st.closeToken1 - r.amount1Used - r2.amount1Used ∧
      (NpcLp.rebalanceAndOpenPositions oEnv st).error = none) ∧
    ((NpcLp.closePositionsPhase cEnv st2).state.closeToken0 =
        st2.closeToken0 + cl.amount0 + cu.amount0 ∧
      (NpcLp.closePositionsPhase cEnv st2).state.closeToken1 =
        st2.closeToken1 + cl.amount1 + cu.amount1 ∧
      (NpcLp.closePositionsPhase cEnv st2).error = none) := by
  constructor
  · simp [NpcLp.rebalanceAndOpenPositions, hUp, hLow, NpcLp.getPositionInfoAt]
  · simp [NpcLp.closePositionsPhase, hl, hu, hlid, huid, hcl, hcu]

/-- Witness for C7: mints consume (60, 40) and (0, 55) from balances
(100, 100); closes return (61, 39) and (1, 56) on top of balances (2, 3). -/
theorem balance_conservation_mint_close_witness :
    (NpcLp.rebalanceAndOpenPositions
      { currentPrice := 2500, upperMint := some ⟨7, 60, 40⟩,
        lowerMint := some ⟨8, 0, 55⟩, closeUpper := none,
        positionInfo := fun _ =>
          { tickLower := 0, tickUpper := 10, liquidity := 1,
            tokenId := none, token0Amount := none, token1Amount := none } }
      { upper := none, lower := none, closeToken0 := 100, closeToken1 := 100,
        totalFeesCollectedToken0 := 0, totalFeesCollectedToken1 := 0,
        totalRebalanceCount := 0, lastRebalancePrice := 0 }).state.closeToken0 =
      100 - 60 - 0 ∧
    (NpcLp.closePositionsPhase
      { closeLower := some ⟨1, 56⟩, closeUpper := some ⟨61, 39⟩ }
      { upper := some { tickLower := 10, tickUpper := 20, liquidity := 5,
                        tokenId := some 7, token0Amount := some 60,
                        token1Amount := some 40 },
        lower := some { tickLower := 0, tickUpper := 10, liquidity := 5,
                        tokenId := some 8, token0Amount := some 0,
                        token1Amount := some 55 },
        closeToken0 := 2, closeToken1 := 3,
        totalFeesCollectedToken0 := 0, totalFeesCollectedToken1 := 0,
        totalRebalanceCount := 0, lastRebalancePrice := 0 }).state.closeToken0 =
      2 + 1 + 61 := by
  have h := balance_conservation_mint_close
    { currentPrice := 2500, upperMint := some ⟨7, 60, 40⟩,
      lowerMint := some ⟨8, 0, 55⟩, closeUpper := none,
      positionInfo := fun _ =>
        { tickLower := 0, tickUpper := 10, liquidity := 1,
          tokenId := none, token0Amount := none, token1Amount := none } }
    { upper := none, lower := none, closeToken0 := 100, closeToken1 := 100,
      totalFeesCollectedToken0 := 0, totalFeesCollectedToken1 := 0,
      totalRebalanceCount := 0, lastRebalancePrice := 0 }
    ⟨7, 60, 40⟩ ⟨8, 0, 55⟩
    { closeLower := some ⟨1, 56⟩, closeUpper := some ⟨61, 39⟩ }
    { upper := some { tickLower := 10, tickUpper := 20, liquidity := 5,
                      tokenId := some 7, token0Amount := some 60,
                      token1Amount := some 40 },
      lower := some { tickLower := 0, tickUpper := 10, liquidity := 5,
                      tokenId := some 8, token0Amount := some 0,
                      token1Amount := some 55 },
      closeToken0 := 2, closeToken1 := 3,
      totalFeesCollectedToken0 := 0, totalFeesCollectedToken1 := 0,
      totalRebalanceCount := 0, lastRebalancePrice := 0 }
    { tickLower := 0, tickUpper := 10, liquidity := 5,
      tokenId := some 8, token0Amount := some 0, token1Amount := some 55 }
    { tickLower := 10, tickUpper := 20, liquidity := 5,
      tokenId := some 7, token0Amount := some 60, token1Amount := some 40 }
    ⟨1, 56⟩ ⟨61, 39⟩ 8 7 rfl rfl rfl rfl rfl rfl rfl rfl
  exact ⟨h.1.1, h.2.1⟩

/-- C10 counterexample: with the upper slot `null` but the lower slot
populated (`tickLower = 0`), tick spacing 10 and current tick −100, the
threshold check returns `true` — the claim that a single `null` slot makes
it return `false` for every tick is wrong; the `NaN` threshold disables only
the comparison that involves the missing slot. -/
theorem threshold_single_null_slot_counterexample :
    NpcLp.isPriceBeyondTickThreshold none
      (some { tickLower := 0, tickUpper := 100, liquidity := 1,
              tokenId := some 1, token0Amount := none, token1Amount := none })
      10 (-100) = true := by decide

/-- C10 (amended): when BOTH position slots are `null`, both computed
thresholds are `NaN`, the check returns `false` for every current tick, and
one whole `strategy` iteration leaves the state unchanged — in particular,
after a partial-failure unwind empties both slots, the strategy check alone
never reopens positions. -/
theorem threshold_both_null_never_triggers
    (cEnv : NpcLp.CloseEnv) (bEnv : NpcLp.BalanceEnv) (oEnv : NpcLp.OpenEnv)
    (d0 d1 : ℕ) (bp : ℚ) (s t : ℤ) (st : NpcLp.StrategyState)
    (hu : st.upper = none) (hl : st.lower = none) :
    NpcLp.isPriceBeyondTickThreshold st.upper st.lower s t = false ∧
    NpcLp.strategyStep cEnv bEnv oEnv d0 d1 bp s t st =
      { state := st, error := none } := by
  have h : NpcLp.isPriceBeyondTickThreshold st.upper st.lower s t = false := by
    simp [NpcLp.isPriceBeyondTickThreshold, hu, hl]
  exact ⟨h, by simp [NpcLp.strategyStep, h]⟩

/-- Witness for C10 (amended) on a concrete empty-slot state. -/
theorem threshold_both_null_never_triggers_witness :
    NpcLp.isPriceBeyondTickThreshold
      ({ upper := none, lower := none, closeToken0 := 5, closeToken1 := 5,
         totalFeesCollectedToken0 := 0, totalFeesCollectedToken1 := 0,
         totalRebalanceCount := 0, lastRebalancePrice := 0 } :
           NpcLp.StrategyState).upper
      ({ upper := none, lower := none, closeToken0 := 5, closeToken1 := 5,
         totalFeesCollectedToken0 := 0, totalFeesCollectedToken1 := 0,
         totalRebalanceCount := 0, lastRebalancePrice := 0 } :
           NpcLp.StrategyState).lower 10 123456 = false := by
  exact (threshold_both_null_never_triggers
    { closeLower := none, closeUpper := none }
    { currentPrice := 1, swapSucceeds := true,
      actualToken0Balance := 0, actualToken1Balance := 0 }
    { currentPrice := 1, upperMint := none, lowerMint := none,
      closeUpper := none,
      positionInfo := fun _ =>
        { tickLower := 0, tickUpper := 10, liquidity := 1,
          tokenId := none, token0Amount := none, token1Amount := none } }
    18 6 1 10 123456
    { upper := none, lower := none, closeToken0 := 5, closeToken1 := 5,
      totalFeesCollectedToken0 := 0, totalFeesCollectedToken1 := 0,
      totalRebalanceCount := 0, lastRebalancePrice := 0 }
    rfl rfl).1

/-- C6: with nonnegative balances and a positive price, `ensureBalanced5050`
issues no swap when the two USD values are exactly equal, and otherwise
issues exactly one swap of the larger-value token into the smaller, sized to
reach equal USD value (`(token0Value - totalValue/2)/currentPrice` of token0,
or `token1Value - totalValue/2` of token1); the condition is a strict `> 0`
comparison, so any nonzero imbalance triggers the swap, and a swap failure
is surfaced as an error. -/
theorem ensureBalanced5050_single_swap
    (env : NpcLp.BalanceEnv) (d0 d1 : ℕ) (st : NpcLp.StrategyState)
    (hb0 : 0 ≤ st.closeToken0) (hb1 : 0 ≤ st.closeToken1)
    (hp : 0 < env.currentPrice) :
    ((((st.closeToken0 : ℚ) / 10 ^ d0) * env.currentPrice =
        (st.closeToken1 : ℚ) / 10 ^ d1) →
      NpcLp.ensureBalanced5050 env d0 d1 st =
        ({ state := st, error := none }, [])) ∧
    ((((st.closeToken0 : ℚ) / 10 ^ d0) * env.currentPrice ≠
        (st.closeToken1 : ℚ) / 10 ^ d1) →
      ((NpcLp.ensureBalanced5050 env d0 d1 st).2 =
        (if (st.closeToken1 : ℚ) / 10 ^ d1 <
              ((st.closeToken0 : ℚ) / 10 ^ d0) * env.currentPrice then
          [{ dir := NpcLp.SwapDir.zeroForOne,
             amount := (((st.closeToken0 : ℚ) / 10 ^ d0) * env.currentPrice -
               (((st.closeToken0 : ℚ) / 10 ^ d0) * env.currentPrice +
                 (st.closeToken1 : ℚ) / 10 ^ d1) / 2) / env.currentPrice }]
        else
          [{ dir := NpcLp.SwapDir.oneForZero,
             amount := (st.closeToken1 : ℚ) / 10 ^ d1 -
               (((st.closeToken0 : ℚ) / 10 ^ d0) * env.currentPrice +
                 (st.closeToken1 : ℚ) / 10 ^ d1) / 2 }]) ∧
      (NpcLp.ensureBalanced5050 env d0 d1 st).1.error =
        (if env.swapSucceeds then none
         else some NpcLp.StrategyError.swapFailed))) := by
  have hv0 : 0 ≤ ((st.closeToken0 : ℚ) / 10 ^ d0) * env.currentPrice := by
    have : (0:ℚ) ≤ (st.closeToken0 : ℚ) := by exact_mod_cast hb0
    positivity
  have hv1 : (0:ℚ) ≤ (st.closeToken1 : ℚ) / 10 ^ d1 := by
    have : (0:ℚ) ≤ (st.closeToken1 : ℚ) := by exact_mod_cast hb1
    positivity
  constructor
  · intro heq
    have hcond : ¬(|((st.closeToken0 : ℚ) / 10 ^ d0) * env.currentPrice -
        (st.closeToken1 : ℚ) / 10 ^ d1| /
        (((st.closeToken0 : ℚ) / 10 ^ d0) * env.currentPrice +
          (st.closeToken1 : ℚ) / 10 ^ d1) > 0) := by
      rw [heq]
      simp
    simp only [NpcLp.ensureBalanced5050]
    rw [if_neg hcond]
  · intro hne
    have hsum : 0 < ((st.closeToken0 : ℚ) / 10 ^ d0) * env.currentPrice +
        (st.closeToken1 : ℚ) / 10 ^ d1 := by
      rcases hv0.lt_or_eq with h0 | h0
      · linarith
      · rcases hv1.lt_or_eq with h1 | h1
        · linarith
        · exact absurd (h0.symm.trans h1) hne
    have hcond : |((st.closeToken0 : ℚ) / 10 ^ d0) * env.currentPrice -
        (st.closeToken1 : ℚ) / 10 ^ d1| /
        (((st.closeToken0 : ℚ) / 10 ^ d0) * env.currentPrice +
          (st.closeToken1 : ℚ) / 10 ^ d1) > 0 :=
      div_pos (abs_pos.mpr (sub_ne_zero.mpr hne)) hsum
    constructor
    · simp only [NpcLp.ensureBalanced5050]
      rw [if_pos hcond]
      split_ifs <;> rfl
    · simp only [NpcLp.ensureBalanced5050]
      rw [if_pos hcond]
      split_ifs <;> rfl

/-- Witness for C6: balances (4, 2) with unit decimals and price 1 give USD
values 4 and 2; one token0→token1 swap of size (4 − 3)/1 is issued and the
successful swap leaves no error. -/
theorem ensureBalanced5050_single_swap_witness :
    (((4:ℤ) : ℚ) / 10 ^ 0 * 1 ≠ ((2:ℤ) : ℚ) / 10 ^ 0) ∧
    (NpcLp.ensureBalanced5050
      { currentPrice := 1, swapSucceeds := true,
        actualToken0Balance := 3, actualToken1Balance := 3 } 0 0
      { upper := none, lower := none, closeToken0 := 4, closeToken1 := 2,
        totalFeesCollectedToken0 := 0, totalFeesCollectedToken1 := 0,
        totalRebalanceCount := 0, lastRebalancePrice := 0 }).1.error = none := by
  have h := ensureBalanced5050_single_swap
    { currentPrice := 1, swapSucceeds := true,
      actualToken0Balance := 3, actualToken1Balance := 3 } 0 0
    { upper := none, lower := none, closeToken0 := 4, closeToken1 := 2,
      totalFeesCollectedToken0 := 0, totalFeesCollectedToken1 := 0,
      totalRebalanceCount := 0, lastRebalancePrice := 0 }
    (by norm_num) (by norm_num) (by norm_num)
  refine ⟨by norm_num, ?_⟩
  have h2 := (h.2 (by norm_num)).2
  simpa using h2

/-- C8 counterexample: calling `getTickSpacing` on a freshly constructed,
never-initialized `OracleService` returns normally with the field's `null`
value — `return this.tickSpacing!` performs no runtime check and the class
has no error path, so no `NotInitializedError` (or any error) is raised,
contrary to the claim. -/
theorem getTickSpacing_uninitialized_returns_null :
    NpcLp.getTickSpacing NpcLp.OracleState.uninitialized = none := rfl

/-- C8 (amended): `getTickSpacing` returns the tick-spacing value cached by
`initialize`; called before `initialize` it returns the uninitialized `null`
field value instead of raising an error. -/
theorem getTickSpacing_cached_value
    (fetched : NpcLp.OracleFetched) (s : NpcLp.OracleState) :
    NpcLp.getTickSpacing (NpcLp.initializeOracle fetched s) =
      some fetched.tickSpacing ∧
    NpcLp.getTickSpacing NpcLp.OracleState.uninitialized = none :=
  ⟨rfl, rfl⟩

/-- The accumulation loop multiplies `step` into the accumulator `n` times. -/
theorem powLoop_eq (step : ℚ) :
    ∀ (n : ℕ) (p : ℚ), NpcLp.powLoop step n p = p * step ^ n := by
  intro n
  induction n with
  | zero => intro p; simp [NpcLp.powLoop]
  | succ k ih =>
    intro p
    rw [NpcLp.powLoop, ih, pow_succ]
    ring

/-- C9: for `|tick| > 50000`, the chunked computation of
`LiquidityManager.tickToPrice` — multiplying by `step = 1.0001^(50000*sign)`
for `floor(|tick|/50000)` iterations and then applying
`1.0001^(remainder*sign)` — equals the direct formula
`1.0001^tick * 10^(token0Decimals - token1Decimals)` in exact arithmetic. -/
theorem tickToPrice_chunked_eq_direct (tick d0 d1 : ℤ)
    (h : 50000 < tick.natAbs) :
    NpcLp.LiquidityManager.tickToPrice tick d0 d1 =
      NpcLp.tickToPriceDirect tick d0 d1 := by
  have hbase : (1.0001 : ℚ) ≠ 0 := by norm_num
  have hne : tick ≠ 0 := by
    intro h0
    rw [h0] at h
    simp at h
  have hexp : 50000 * tick.sign * ((tick.natAbs / 50000 : ℕ) : ℤ) +
      (tick.natAbs : ℤ) % 50000 * tick.sign = tick := by
    rcases lt_trichotomy tick 0 with h1 | h1 | h1
    · rw [Int.sign_eq_neg_one_of_neg h1]
      omega
    · exact absurd h1 hne
    · rw [Int.sign_eq_one_of_pos h1]
      omega
  have hchunk : NpcLp.powLoop ((1.0001:ℚ) ^ (50000 * tick.sign))
        (tick.natAbs / 50000) 1 *
        (1.0001:ℚ) ^ ((tick.natAbs : ℤ) % 50000 * tick.sign) =
      (1.0001:ℚ) ^ tick := by
    rw [powLoop_eq, one_mul,
      ← zpow_natCast ((1.0001:ℚ) ^ (50000 * tick.sign)) (tick.natAbs / 50000),
      ← zpow_mul, ← zpow_add₀ hbase, hexp]
  simp only [NpcLp.LiquidityManager.tickToPrice, NpcLp.tickToPriceDirect,
    if_pos h]
  rw [hchunk]
  split_ifs with hd
  · rfl
  · have hd2 : d0 = d1 := not_not.mp hd
    rw [hd2, sub_self, zpow_zero, mul_one]

/-- Witness for C9 at tick 100001 with decimals 18 and 6. -/
theorem tickToPrice_chunked_eq_direct_witness :
    50000 < (100001 : ℤ).natAbs ∧
    NpcLp.LiquidityManager.tickToPrice 100001 18 6 =
      NpcLp.tickToPriceDirect 100001 18 6 :=
  ⟨by decide, tickToPrice_chunked_eq_direct 100001 18 6 (by decide)⟩

/-- The log of the tick base 1.0001 is positive. -/
theorem log_base_pos : (0:ℝ) < Real.log 1.0001 :=
  Real.log_pos (by norm_num)

/-- When both tokens have the same decimals the decimal-adjustment term of
`priceToTick` vanishes. -/
theorem priceToTick_eq_decimals (d : ℤ) (x : ℝ) :
    NpcLp.CustomPoolStrategy.priceToTick d d x =
      Real.log x / Real.log 1.0001 := by
  unfold NpcLp.CustomPoolStrategy.priceToTick
  rw [sub_self, zero_mul, sub_zero]

/-- `priceToTick` is strictly increasing on positive prices. -/
theorem priceToTick_lt (d0 d1 : ℤ) (p q : ℝ) (hp : 0 < p) (hpq : p < q) :
    NpcLp.CustomPoolStrategy.priceToTick d0 d1 p <
      NpcLp.CustomPoolStrategy.priceToTick d0 d1 q := by
  have hL := log_base_pos
  have hlog := Real.log_lt_log hp hpq
  unfold NpcLp.CustomPoolStrategy.priceToTick
  have h2 : Real.log p - ((d0:ℝ) - (d1:ℝ)) * Real.log 10 <
      Real.log q - ((d0:ℝ) - (d1:ℝ)) * Real.log 10 := by linarith
  exact (div_lt_div_right hL).mpr h2

/-- Upper bound on the log-ratio from a rational certificate:
if `x * 1.0001^k < 1` then `log x / log 1.0001 < -k`. -/
theorem logRatio_lt_neg_of (x : ℝ) (k : ℕ) (hx : 0 < x)
    (h : x * (1.0001:ℝ) ^ k < 1) :
    Real.log x / Real.log 1.0001 < -(k:ℝ) := by
  have hL := log_base_pos
  have hlt : Real.log (x * (1.0001:ℝ) ^ k) < 0 :=
    Real.log_neg (by positivity) h
  rw [Real.log_mul hx.ne' (by positivity), Real.log_pow] at hlt
  rw [div_lt_iff hL]
  linarith

/-- Lower bound on the log-ratio from a rational certificate:
if `1 ≤ x * 1.0001^k` then `-k ≤ log x / log 1.0001`. -/
theorem neg_le_logRatio_of (x : ℝ) (k : ℕ) (hx : 0 < x)
    (h : 1 ≤ x * (1.0001:ℝ) ^ k) :
    -(k:ℝ) ≤ Real.log x / Real.log 1.0001 := by
  have hL := log_base_pos
  have hge : 0 ≤ Real.log (x * (1.0001:ℝ) ^ k) := Real.log_nonneg h
  rw [Real.log_mul hx.ne' (by positivity), Real.log_pow] at hge
  rw [le_div_iff hL]
  linarith

/-- For `x` strictly between `1.0001^(-10)` and `1`, the raw tick of `x`
falls in `[-10, 0)`, so dividing by spacing 10 and flooring gives `-1`. -/
theorem floor_logRatio_div_ten_eq_neg_one (x : ℝ) (hx0 : 0 < x) (hx1 : x < 1)
    (h : 1 ≤ x * (1.0001:ℝ) ^ (10:ℕ)) :
    ⌊Real.log x / Real.log 1.0001 / (10:ℝ)⌋ = -1 := by
  have hL := log_base_pos
  have hgen : -((10:ℕ):ℝ) ≤ Real.log x / Real.log 1.0001 :=
    neg_le_logRatio_of x 10 hx0 h
  have hneg : Real.log x / Real.log 1.0001 < 0 :=
    div_neg_of_neg_of_pos (Real.log_neg hx0 hx1) hL
  rw [Int.floor_eq_iff]
  constructor
  · push_cast
    rw [le_div_iff (by norm_num : (0:ℝ) < 10)]
    push_cast at hgen
    linarith
  · push_cast
    have hq : Real.log x / Real.log 1.0001 / 10 < 0 :=
      div_neg_of_neg_of_pos hneg (by norm_num)
    linarith

/-- A floor-aligned multiple below `t` is strictly less than a ceil-aligned
multiple above `u` whenever `t < u`. -/
theorem floor_mul_lt_ceil_mul (s : ℤ) (hs : 0 < s) (t u : ℝ) (htu : t < u) :
    s * ⌊t / (s:ℝ)⌋ < s * ⌈u / (s:ℝ)⌉ := by
  have hsR : (0:ℝ) < (s:ℝ) := by exact_mod_cast hs
  have hB : ((s * ⌊t / (s:ℝ)⌋ : ℤ) : ℝ) ≤ t := by
    push_cast
    calc (s:ℝ) * ⌊t / (s:ℝ)⌋ ≤ (s:ℝ) * (t / (s:ℝ)) :=
          mul_le_mul_of_nonneg_left (Int.floor_le (t / (s:ℝ))) hsR.le
      _ = t := by field_simp
  have hC : u ≤ ((s * ⌈u / (s:ℝ)⌉ : ℤ) : ℝ) := by
    push_cast
    calc u = (s:ℝ) * (u / (s:ℝ)) := by field_simp
      _ ≤ (s:ℝ) * ⌈u / (s:ℝ)⌉ :=
          mul_le_mul_of_nonneg_left (Int.le_ceil (u / (s:ℝ))) hsR.le
  have hcast : ((s * ⌊t / (s:ℝ)⌋ : ℤ) : ℝ) < ((s * ⌈u / (s:ℝ)⌉ : ℤ) : ℝ) :=
    lt_of_le_of_lt hB (lt_of_lt_of_le htu hC)
  exact_mod_cast hcast

/-- C3 counterexample: at `price = √1.0001` (with equal token decimals, so
the decimal term vanishes) `priceToTick` returns exactly `1/2` — the source
returns the raw log-ratio quotient and never applies the floor, so its
result differs from the claimed `floor(...)`, which is `0` here. -/
theorem priceToTick_not_floor_counterexample :
    NpcLp.CustomPoolStrategy.priceToTick 18 18 (Real.sqrt 1.0001) ≠
      ((NpcLp.priceToTickFloorSpec 18 18 (Real.sqrt 1.0001) : ℤ) : ℝ) := by
  have hL := log_base_pos
  have hval : Real.log (Real.sqrt 1.0001) / Real.log 1.0001 = 1 / 2 := by
    rw [Real.log_sqrt (by norm_num : (0:ℝ) ≤ 1.0001)]
    field_simp
    ring
  have h1 : NpcLp.CustomPoolStrategy.priceToTick 18 18 (Real.sqrt 1.0001) =
      1 / 2 := by
    rw [priceToTick_eq_decimals, hval]
  have h2 : NpcLp.priceToTickFloorSpec 18 18 (Real.sqrt 1.0001) = 0 := by
    unfold NpcLp.priceToTickFloorSpec
    rw [sub_self, zero_mul, sub_zero, hval]
    exact Int.floor_eq_zero_iff.mpr ⟨by norm_num, by norm_num⟩
  rw [h1, h2]
  norm_num

/-- C3 (amended): `priceToTick` returns the raw quotient
`(ln price − (d0−d1)·ln 10) / ln 1.0001` without flooring, and it is
strictly monotonic on positive prices. -/
theorem priceToTick_unfloored_strict_mono (d0 d1 : ℤ) (p q : ℝ)
    (hp : 0 < p) (hpq : p < q) :
    NpcLp.CustomPoolStrategy.priceToTick d0 d1 p <
      NpcLp.CustomPoolStrategy.priceToTick d0 d1 q :=
  priceToTick_lt d0 d1 p q hp hpq

/-- Witness for C3 (amended) at prices 1 < 2 with decimals 18 and 6. -/
theorem priceToTick_unfloored_strict_mono_witness :
    (0:ℝ) < 1 ∧ (1:ℝ) < 2 ∧
    NpcLp.CustomPoolStrategy.priceToTick 18 6 1 <
      NpcLp.CustomPoolStrategy.priceToTick 18 6 2 :=
  ⟨by norm_num, by norm_num,
    priceToTick_unfloored_strict_mono 18 6 1 2 (by norm_num) (by norm_num)⟩

/-- C4 counterexample: at `currentPrice = 1`, `widthPercent = 0.1`,
`tickSpacing = 10` (equal decimals), the raw lower-bound tick (≈ −5.0)
and the raw transition tick (≈ −0.5) both floor-align to −10, so
`lowerBoundTick = transitionTick` and the claimed strict ordering fails
even though `0 < widthPercent < 200` and `tickSpacing > 0`. -/
theorem planRanges_ordering_counterexample :
    (NpcLp.planRanges 18 18 10 (1/10) 1).1 =
      (NpcLp.planRanges 18 18 10 (1/10) 1).2.1 := by
  have hcast : ((10:ℤ):ℝ) = (10:ℝ) := by norm_num
  have e1 : (1:ℝ) - 1 * (1/10 / 100) / 2 = 0.9995 := by norm_num
  have e2 : (1:ℝ) - 1 * (1/10 / 100) * 0.05 = 0.99995 := by norm_num
  have h1 : (NpcLp.planRanges 18 18 10 (1/10) 1).1 =
      10 * ⌊NpcLp.CustomPoolStrategy.priceToTick 18 18
        ((1:ℝ) - 1 * (1/10 / 100) / 2) / ((10:ℤ):ℝ)⌋ := rfl
  have h2 : (NpcLp.planRanges 18 18 10 (1/10) 1).2.1 =
      10 * ⌊NpcLp.CustomPoolStrategy.priceToTick 18 18
        ((1:ℝ) - 1 * (1/10 / 100) * 0.05) / ((10:ℤ):ℝ)⌋ := rfl
  rw [h1, h2, e1, e2, priceToTick_eq_decimals, priceToTick_eq_decimals, hcast,
    floor_logRatio_div_ten_eq_neg_one 0.9995 (by norm_num) (by norm_num)
      (by norm_num),
    floor_logRatio_div_ten_eq_neg_one 0.99995 (by norm_num) (by norm_num)
      (by norm_num)]

/-- C4 (amended): under the spec's own non-degeneracy condition — the raw
lower-bound tick and raw transition tick land in distinct tick-spacing
buckets (their floors after division by the spacing differ) — the planned
ticks satisfy `lowerBoundTick < transitionTick < upperBoundTick`, and all
three are multiples of the tick spacing; the transition/upper inequality
needs no extra hypothesis. -/
theorem planRanges_ordering_of_no_collapse
    (d0 d1 s : ℤ) (w p : ℝ)
    (hp : 0 < p) (hw0 : 0 < w) (hw200 : w < 200) (hs : 0 < s)
    (hnc : ⌊NpcLp.CustomPoolStrategy.priceToTick d0 d1
        (p - p * (w / 100) / 2) / (s:ℝ)⌋ <
      ⌊NpcLp.CustomPoolStrategy.priceToTick d0 d1
        (p - p * (w / 100) * 0.05) / (s:ℝ)⌋) :
    ((NpcLp.planRanges d0 d1 s w p).1 < (NpcLp.planRanges d0 d1 s w p).2.1 ∧
      (NpcLp.planRanges d0 d1 s w p).2.1 <
        (NpcLp.planRanges d0 d1 s w p).2.2) ∧
    (s ∣ (NpcLp.planRanges d0 d1 s w p).1 ∧
      s ∣ (NpcLp.planRanges d0 d1 s w p).2.1 ∧
      s ∣ (NpcLp.planRanges d0 d1 s w p).2.2) := by
  have h1 : (NpcLp.planRanges d0 d1 s w p).1 =
      s * ⌊NpcLp.CustomPoolStrategy.priceToTick d0 d1
        (p - p * (w / 100) / 2) / (s:ℝ)⌋ := rfl
  have h2 : (NpcLp.planRanges d0 d1 s w p).2.1 =
      s * ⌊NpcLp.CustomPoolStrategy.priceToTick d0 d1
        (p - p * (w / 100) * 0.05) / (s:ℝ)⌋ := rfl
  have h3 : (NpcLp.planRanges d0 d1 s w p).2.2 =
      s * ⌈NpcLp.CustomPoolStrategy.priceToTick d0 d1
        (p + p * (w / 100) / 2) / (s:ℝ)⌉ := rfl
  refine ⟨⟨?_, ?_⟩, ?_, ?_, ?_⟩
  · rw [h1, h2]
    exact mul_lt_mul_of_pos_left hnc hs
  · rw [h2, h3]
    have hpw : p * w < p * 200 := mul_lt_mul_of_pos_left hw200 hp
    have hpw0 : 0 < p * (w / 100) := by positivity
    have htp : 0 < p - p * (w / 100) * 0.05 := by nlinarith
    have hlt : p - p * (w / 100) * 0.05 < p + p * (w / 100) / 2 := by
      nlinarith
    exact floor_mul_lt_ceil_mul s hs _ _ (priceToTick_lt d0 d1 _ _ htp hlt)
  · rw [h1]; exact dvd_mul_right s _
  · rw [h2]; exact dvd_mul_right s _
  · rw [h3]; exact dvd_mul_right s _

/-- Witness for C4 (amended): price 1, width 100%, spacing 10; the raw
lower-bound tick (≈ −6931) and raw transition tick (≈ −513) land in
different spacing buckets, and the planned ticks are strictly ordered. -/
theorem planRanges_ordering_of_no_collapse_witness :
    (0:ℝ) < 1 ∧ (0:ℝ) < 100 ∧ (100:ℝ) < 200 ∧ (0:ℤ) < 10 ∧
    ((NpcLp.planRanges 18 18 10 100 1).1 <
        (NpcLp.planRanges 18 18 10 100 1).2.1 ∧
      (NpcLp.planRanges 18 18 10 100 1).2.1 <
        (NpcLp.planRanges 18 18 10 100 1).2.2) := by
  have hcast : ((10:ℤ):ℝ) = (10:ℝ) := by norm_num
  have e1 : (1:ℝ) - 1 * ((100:ℝ) / 100) / 2 = 0.5 := by norm_num
  have e2 : (1:ℝ) - 1 * ((100:ℝ) / 100) * 0.05 = 0.95 := by norm_num
  have hnc : ⌊NpcLp.CustomPoolStrategy.priceToTick 18 18
      ((1:ℝ) - 1 * ((100:ℝ) / 100) / 2) / (((10:ℤ)):ℝ)⌋ <
      ⌊NpcLp.CustomPoolStrategy.priceToTick 18 18
        ((1:ℝ) - 1 * ((100:ℝ) / 100) * 0.05) / (((10:ℤ)):ℝ)⌋ := by
    rw [e1, e2, priceToTick_eq_decimals, priceToTick_eq_decimals, hcast]
    have hlow : Real.log (0.5:ℝ) / Real.log 1.0001 < -((550:ℕ):ℝ) :=
      logRatio_lt_neg_of 0.5 550 (by norm_num) (by norm_num)
    have htr : -((550:ℕ):ℝ) ≤ Real.log (0.95:ℝ) / Real.log 1.0001 :=
      neg_le_logRatio_of 0.95 550 (by norm_num) (by norm_num)
    push_cast at hlow htr
    have hfl : ⌊Real.log (0.5:ℝ) / Real.log 1.0001 / 10⌋ < (-55 : ℤ) := by
      rw [Int.floor_lt]
      push_cast
      rw [div_lt_iff (by norm_num : (0:ℝ) < 10)]
      linarith
    have hfr : (-55 : ℤ) ≤ ⌊Real.log (0.95:ℝ) / Real.log 1.0001 / 10⌋ := by
      rw [Int.le_floor]
      push_cast
      rw [le_div_iff (by norm_num : (0:ℝ) < 10)]
      linarith
    exact lt_of_lt_of_le hfl hfr
  have h := planRanges_ordering_of_no_collapse 18 18 10 100 1
    (by norm_num) (by norm_num) (by norm_num) (by norm_num) hnc
  exact ⟨by norm_num, by norm_num, by norm_num, by norm_num, h.1⟩
